import Mathlib

/-!
Verification of the mavlink2grpc bridge core against its specification.

The development shallowly embeds the C++ sources:
- `Connection` (src/bridge/src/mavlink/Connection.h, Connection.cc):
  the protocol engine's send path, outgoing sequence counter, and the
  receive-loop sequence-gap accounting.
- `Router` / `StreamSubscription` (src/bridge/src/service/Router.cc):
  filter matching, fan-out delivery, eviction and compaction.
- `MavlinkBridgeServiceImpl` (src/bridge/src/service/Service.cc): the
  unary SendMessage RPC handler.
- `SerialTransport` (SerialTransport.cc): baud-rate mapping and `open`.
- `UdpTransport` (src/bridge/src/mavlink/UdpTransport.cc): `write`.

External effects (transport writes, `sendto`, device `open`, termios
calls, gRPC writers, send callbacks) are modelled as oracle parameters:
the embedded function receives the value the effect would return and is
otherwise a faithful translation of the C++ control flow.
-/

namespace Mav2Grpc

/-! ### Connection: statistics and engine state (Connection.h) -/

/-- `ConnectionStats` (Connection.h lines 31-37): five monotonic
counters, modelled as plain naturals. -/
structure ConnectionStats where
  messages_received : Nat
  messages_sent : Nat
  parse_errors : Nat
  crc_errors : Nat
  sequence_gaps : Nat
deriving Repr, DecidableEq

/-- The engine state relevant to the send path and the receive-side
sequence accounting: whether the transport is open, the outgoing
`sequence_` counter (a `uint8_t`, hence kept `< 256`), the receive-side
`last_sequence_`, and the statistics block. -/
structure ConnectionState where
  transport_open : Bool
  sequence : Nat
  last_sequence : Nat
  stats : ConnectionStats
deriving Repr, DecidableEq

/-- The constructor `Connection::Connection` initialises `sequence_(0)`
and leaves the transport closed; `last_sequence_{0}` per Connection.h. -/
def Connection.init : ConnectionState :=
  { transport_open := false, sequence := 0, last_sequence := 0,
    stats := ⟨0, 0, 0, 0, 0⟩ }

/-- `Connection::start`: fails when already running, otherwise opens the
transport (the oracle `openOk` is what `transport_->open()` returns) and
starts the receive loop. -/
def Connection.start (st : ConnectionState) (openOk : Bool) :
    Bool × ConnectionState :=
  if st.transport_open then (false, st)
  else if openOk then (true, { st with transport_open := true }) else (false, st)

/-- A freshly constructed engine whose `start` succeeded. -/
def started_fresh : ConnectionState :=
  (Connection.start Connection.init true).2

/-- Result of one `Connection::send_message` call: the boolean return,
the sequence value stamped into the frame (`none` when the early
transport-closed exit is taken before stamping), and the new state. -/
structure SendOutcome where
  ok : Bool
  stamped : Option Nat
  state : ConnectionState
deriving Repr, DecidableEq

/-- `Connection::send_message` (Connection.cc lines 68-95).
`presetSeq` is whatever `msg.seq` held on entry — the code overwrites it
with `sequence_.fetch_add(1)` (which returns the old counter value and
wraps as a `uint8_t`), so it never influences the outcome. `len` is the
serialized frame length from `mavlink_msg_to_send_buffer`, and `sent`
is the oracle for `transport_->write`. The failure test is
`sent < 0 || static_cast<size_t>(sent) != len`; only on success is
`messages_sent` incremented. -/
def send_message (st : ConnectionState) (presetSeq len : Nat) (sent : Int) :
    SendOutcome :=
  if st.transport_open = false then
    { ok := false, stamped := none, state := st }
  else
    let stamped := st.sequence
    let st1 := { st with sequence := (st.sequence + 1) % 256 }
    if sent < 0 ∨ sent ≠ (len : Int) then
      { ok := false, stamped := some stamped, state := st1 }
    else
      { ok := true, stamped := some stamped,
        state := { st1 with
          stats := { st1.stats with
            messages_sent := st1.stats.messages_sent + 1 } } }

/-- The sequence values stamped by a run of `send_message` calls, in
emission order. Each call is a triple `(presetSeq, len, sent)`. -/
def send_stamps (st : ConnectionState) :
    List (Nat × Nat × Int) → List Nat
  | [] => []
  | c :: rest =>
    let o := send_message st c.1 c.2.1 c.2.2
    o.stamped.toList ++ send_stamps o.state rest

/-- Receive-loop handling of one validated frame (Connection.cc lines
126-133): increment `messages_received`, compute
`expected = uint8_t(last_sequence_ + 1)`, increment `sequence_gaps`
when `rx.seq != expected && last_sequence_ != 0`, then set
`last_sequence_ = rx.seq`. -/
def process_validated_frame (st : ConnectionState) (seq : Nat) :
    ConnectionState :=
  let stats1 := { st.stats with
    messages_received := st.stats.messages_received + 1 }
  let expected := (st.last_sequence + 1) % 256
  let stats2 :=
    if seq ≠ expected ∧ st.last_sequence ≠ 0 then
      { stats1 with sequence_gaps := stats1.sequence_gaps + 1 }
    else stats1
  { st with stats := stats2, last_sequence := seq }

/-- The receive loop validating a list of frames in order (only their
sequence bytes matter here). -/
def process_frames (st : ConnectionState) : List Nat → ConnectionState
  | [] => st
  | s :: rest => process_frames (process_validated_frame st s) rest

/-! ### Connection lemmas -/

lemma send_message_open_stamps (st : ConnectionState) (p l : Nat) (s : Int)
    (h : st.transport_open = true) :
    (send_message st p l s).stamped = some st.sequence ∧
    (send_message st p l s).state.sequence = (st.sequence + 1) % 256 ∧
    (send_message st p l s).state.transport_open = true := by
  unfold send_message
  rw [h]
  by_cases hf : s < 0 ∨ s ≠ (l : Int) <;> simp [hf]

lemma send_message_ok_of_success (st : ConnectionState) (p l : Nat)
    (s : Int) (hopen : st.transport_open = true)
    (h : ¬ (s < 0 ∨ s ≠ (l : Int))) :
    (send_message st p l s).ok = true := by
  unfold send_message
  rw [hopen]
  simp [h]

lemma send_stamps_general (calls : List (Nat × Nat × Int)) :
    ∀ st : ConnectionState, st.transport_open = true → st.sequence < 256 →
    send_stamps st calls =
      (List.range calls.length).map (fun i => (st.sequence + i) % 256) := by
  induction calls with
  | nil => intro st _ _; rfl
  | cons c rest ih =>
    intro st hopen hlt
    have h := send_message_open_stamps st c.1 c.2.1 c.2.2 hopen
    have hdef : send_stamps st (c :: rest) =
        (send_message st c.1 c.2.1 c.2.2).stamped.toList ++
          send_stamps (send_message st c.1 c.2.1 c.2.2).state rest := rfl
    rw [hdef, h.1]
    rw [ih (send_message st c.1 c.2.1 c.2.2).state h.2.2
      (by rw [h.2.1]; exact Nat.mod_lt _ (by norm_num))]
    rw [h.2.1]
    rw [List.length_cons, List.range_succ_eq_map, List.map_cons,
      List.map_map]
    have hst : st.sequence % 256 = st.sequence := Nat.mod_eq_of_lt hlt
    simp only [Option.toList_some, List.cons_append, List.nil_append,
      Nat.add_zero, hst]
    congr 1
    apply List.map_congr_left
    intro i _
    show ((st.sequence + 1) % 256 + i) % 256 = (st.sequence + (i + 1)) % 256
    omega

/-! ### Claim theorems about the Connection send/receive paths -/

/-- C1: On a started engine every `send_message` call stamps the frame
with the current value of the outgoing counter and advances the counter
by one mod 256, so the k-th send in emission order is stamped
`k % 256` — strictly increasing mod 256, no duplicates, no gaps. The
calls are quantified over arbitrary preset sequence values, serialized
lengths, and transport results, so no caller preset and no write
failure disturbs the stamping order. -/
theorem send_sequence_monotone (calls : List (Nat × Nat × Int)) :
    send_stamps started_fresh calls =
      (List.range calls.length).map (fun k => k % 256) := by
  have h := send_stamps_general calls started_fresh (by decide) (by decide)
  have hseq : started_fresh.sequence = 0 := by decide
  rw [h, hseq]
  apply List.map_congr_left
  intro i _
  omega

/-- C3 counterexample: from a freshly started engine, after validating
frames with sequence numbers 0 then 5, `sequence_gaps` is 0, not 1 as
the claim states: the first frame leaves `last_sequence_ == 0`, so the
`last_sequence_ != 0` guard still suppresses the gap check on the
second frame. -/
theorem seq_gap_zero_start_counterexample :
    ¬ (process_frames started_fresh [0, 5]).stats.sequence_gaps = 1 := by
  decide

/-- C3 amended: with frames seq 0 then 5 the gap counter stays 0
(the check is suppressed while `last_sequence_ == 0`); the stated
gap-detection rule does fire once the last sequence is non-zero, e.g.
frames seq 1 then 5 give `sequence_gaps == 1`. -/
theorem seq_gap_detection_amended :
    (process_frames started_fresh [0, 5]).stats.sequence_gaps = 0 ∧
    (process_frames started_fresh [1, 5]).stats.sequence_gaps = 1 := by
  decide

/-- C7: when the transport write returns a negative count or a count
shorter than the serialized frame length, `send_message` returns false
and every `ConnectionStats` counter is unchanged. -/
theorem send_failure_preserves_stats (st : ConnectionState) (p l : Nat)
    (sent : Int) (hopen : st.transport_open = true)
    (hfail : sent < 0 ∨ sent < (l : Int)) :
    (send_message st p l sent).ok = false ∧
    (send_message st p l sent).state.stats = st.stats := by
  have hfail2 : sent < 0 ∨ sent ≠ (l : Int) := by
    rcases hfail with h | h
    · exact Or.inl h
    · exact Or.inr (by omega)
  unfold send_message
  rw [hopen]
  simp [hfail2]

/-- Witness for C7 at a concrete failing write. -/
theorem send_failure_preserves_stats_witness :
    (send_message started_fresh 0 10 (-1)).ok = false ∧
    (send_message started_fresh 0 10 (-1)).state.stats =
      started_fresh.stats :=
  send_failure_preserves_stats started_fresh 0 10 (-1) (by decide)
    (Or.inl (by norm_num))

/-- C9: on an open transport, `send_message` stamps the current counter
value and advances the counter before the transport write, even when
the write fails (no rollback), so the next successful send is stamped
with the following value — the failed send's value is skipped; on a
closed transport it returns false without stamping or changing any
state. -/
theorem send_sequence_not_rolled_back (st : ConnectionState) (p l : Nat)
    (sent : Int) :
    (st.transport_open = true →
      (send_message st p l sent).stamped = some st.sequence ∧
      (send_message st p l sent).state.sequence = (st.sequence + 1) % 256) ∧
    (st.transport_open = false →
      (send_message st p l sent).ok = false ∧
      (send_message st p l sent).stamped = none ∧
      (send_message st p l sent).state = st) ∧
    (st.transport_open = true → (sent < 0 ∨ sent ≠ (l : Int)) →
      (send_message st p l sent).ok = false ∧
      ∀ p2 l2 : Nat, ∀ s2 : Int, (0 ≤ s2 ∧ s2 = (l2 : Int)) →
        (send_message (send_message st p l sent).state p2 l2 s2).ok = true ∧
        (send_message (send_message st p l sent).state p2 l2 s2).stamped =
          some ((st.sequence + 1) % 256)) := by
  refine ⟨?_, ?_, ?_⟩
  · intro hopen
    have h := send_message_open_stamps st p l sent hopen
    exact ⟨h.1, h.2.1⟩
  · intro hclosed
    unfold send_message
    rw [hclosed]
    simp
  · intro hopen hfail
    have h := send_message_open_stamps st p l sent hopen
    constructor
    · unfold send_message
      rw [hopen]
      simp [hfail]
    · intro p2 l2 s2 hs2
      have hok : ¬ (s2 < 0 ∨ s2 ≠ (l2 : Int)) := by
        push_neg
        exact ⟨hs2.1, hs2.2⟩
      constructor
      · exact send_message_ok_of_success _ p2 l2 s2 h.2.2 hok
      · have h2 := send_message_open_stamps
          (send_message st p l sent).state p2 l2 s2 h.2.2
        rw [h2.1, h.2.1]

/-- Witness for C9: a concrete closed-transport send, a concrete failed
send on an open transport, and the successful send after it. -/
theorem send_sequence_not_rolled_back_witness :
    (send_message started_fresh 0 10 (-1)).stamped =
      some started_fresh.sequence ∧
    (send_message Connection.init 0 10 5).ok = false ∧
    (send_message (send_message started_fresh 0 10 (-1)).state 0 5 5).stamped
      = some ((started_fresh.sequence + 1) % 256) :=
  ⟨((send_sequence_not_rolled_back started_fresh 0 10 (-1)).1 (by decide)).1,
   ((send_sequence_not_rolled_back Connection.init 0 10 5).2.1 (by decide)).1,
   (((send_sequence_not_rolled_back started_fresh 0 10 (-1)).2.2 (by decide)
      (Or.inl (by norm_num))).2 0 5 5 ⟨by norm_num, by norm_num⟩).2⟩

/-! ### Router: subscriptions, filter matching, fan-out (Router.h/.cc) -/

/-- `mavlink::StreamFilter` (proto): system id, component id, repeated
message ids. -/
structure StreamFilter where
  system_id : Nat
  component_id : Nat
  message_ids : List Nat
deriving Repr, DecidableEq

/-- The header fields of `mavlink::MavlinkMessage` that the router
consults. -/
structure MavlinkMessage where
  system_id : Nat
  component_id : Nat
  message_id : Nat
deriving Repr, DecidableEq

/-- `StreamSubscription::matches` (Router.cc lines 13-39): three
early-exit checks, the third a linear scan over `message_ids`. -/
def sub_matches (filter : StreamFilter) (msg : MavlinkMessage) : Bool :=
  if filter.system_id ≠ 0 ∧ msg.system_id ≠ filter.system_id then false
  else if filter.component_id ≠ 0 ∧ msg.component_id ≠ filter.component_id
    then false
  else if filter.message_ids.length > 0 then
    filter.message_ids.contains msg.message_id
  else true

/-- `StreamSubscription` (Router.h lines 28-43); the gRPC write callback
is modelled as a pure function giving the boolean each `write_func`
invocation would return for a message. -/
structure Sub where
  id : Nat
  filter : StreamFilter
  write : MavlinkMessage → Bool
  active : Bool

/-- Result of `Router::route_message`: the delivered count it returns,
the updated subscription vector, and the ids whose `write_func` was
invoked, in invocation order. -/
structure RouteResult where
  delivered : Nat
  subs : List Sub
  invoked : List Nat

/-- `Router::route_message` (Router.cc lines 88-118): walk the vector in
order; skip inactive records and non-matching filters; call
`write_func`; count successes; mark a failing record inactive without
removing it. -/
def route_message : List Sub → MavlinkMessage → RouteResult
  | [], _ => ⟨0, [], []⟩
  | s :: rest, m =>
    if s.active then
      if sub_matches s.filter m then
        if s.write m then
          let r := route_message rest m
          ⟨r.delivered + 1, s :: r.subs, s.id :: r.invoked⟩
        else
          let r := route_message rest m
          ⟨r.delivered, { s with active := false } :: r.subs,
            s.id :: r.invoked⟩
      else
        let r := route_message rest m
        ⟨r.delivered, s :: r.subs, r.invoked⟩
    else
      let r := route_message rest m
      ⟨r.delivered, s :: r.subs, r.invoked⟩

/-- A run of `route_message` calls; returns the final vector and all
invoked ids. -/
def route_many (subs : List Sub) : List MavlinkMessage → List Sub × List Nat
  | [] => (subs, [])
  | m :: ms =>
    let r := route_message subs m
    let rest := route_many r.subs ms
    (rest.1, r.invoked ++ rest.2)

/-- `Router::subscription_count` (Router.cc lines 120-127): the number
of active records. -/
def subscription_count (subs : List Sub) : Nat :=
  (subs.filter (fun s => s.active)).length

/-- `Router::cleanup_inactive` (Router.cc lines 129-152): erase the
inactive records, return `before - after`. -/
def cleanup_inactive (subs : List Sub) : List Sub × Nat :=
  let remaining := subs.filter (fun s => s.active)
  (remaining, subs.length - remaining.length)

/-- The active records whose filter matches `m` — exactly those whose
`write_func` a `route_message m` call invokes. -/
def active_matching (subs : List Sub) (m : MavlinkMessage) : List Sub :=
  subs.filter (fun s => s.active && sub_matches s.filter m)

/-! ### Claim theorem: filter matching (C2) -/

/-- C2: the subscription matcher returns true iff the system-id,
component-id and message-id predicates all accept the message, with 0
(resp. empty list) meaning accept-any. -/
theorem sub_matches_iff (f : StreamFilter) (m : MavlinkMessage) :
    sub_matches f m = true ↔
      ((f.system_id = 0 ∨ f.system_id = m.system_id) ∧
       (f.component_id = 0 ∨ f.component_id = m.component_id) ∧
       (f.message_ids = [] ∨ m.message_id ∈ f.message_ids)) := by
  unfold sub_matches
  split_ifs with h1 h2 h3
  · simp only [Bool.false_eq_true, false_iff]
    intro hP
    rcases hP.1 with h | h
    · exact h1.1 h
    · exact h1.2 h.symm
  · simp only [Bool.false_eq_true, false_iff]
    intro hP
    rcases hP.2.1 with h | h
    · exact h2.1 h
    · exact h2.2 h.symm
  · push_neg at h1 h2
    have hs : f.system_id = 0 ∨ f.system_id = m.system_id := by
      by_cases h : f.system_id = 0
      · exact Or.inl h
      · exact Or.inr (h1 h).symm
    have hc : f.component_id = 0 ∨ f.component_id = m.component_id := by
      by_cases h : f.component_id = 0
      · exact Or.inl h
      · exact Or.inr (h2 h).symm
    constructor
    · intro h
      exact ⟨hs, hc, Or.inr (by simpa using h)⟩
    · intro hP
      rcases hP.2.2 with h | h
      · rw [h] at h3; simp at h3
      · simpa using h
  · push_neg at h1 h2
    have hs : f.system_id = 0 ∨ f.system_id = m.system_id := by
      by_cases h : f.system_id = 0
      · exact Or.inl h
      · exact Or.inr (h1 h).symm
    have hc : f.component_id = 0 ∨ f.component_id = m.component_id := by
      by_cases h : f.component_id = 0
      · exact Or.inl h
      · exact Or.inr (h2 h).symm
    have hemp : f.message_ids = [] := by
      cases hml : f.message_ids with
      | nil => rfl
      | cons a t => rw [hml] at h3; simp at h3
    simp only [true_iff]
    exact ⟨hs, hc, Or.inl hemp⟩

/-! ### Router lemmas -/

lemma route_message_all_ok (m : MavlinkMessage) :
    ∀ subs : List Sub,
      (∀ s ∈ subs, s.active = true → sub_matches s.filter m = true →
        s.write m = true) →
      route_message subs m =
        ⟨(active_matching subs m).length, subs,
          (active_matching subs m).map (fun s => s.id)⟩ := by
  intro subs
  induction subs with
  | nil => intro _; rfl
  | cons s rest ih =>
    intro h
    have hrest := ih (fun x hx hx2 hx3 =>
      h x (List.mem_cons_of_mem s hx) hx2 hx3)
    by_cases hact : s.active = true
    · by_cases hm : sub_matches s.filter m = true
      · have hw := h s (List.mem_cons_self s rest) hact hm
        simp [route_message, hact, hm, hw, hrest, active_matching,
          List.filter_cons]
      · rw [Bool.not_eq_true] at hm
        simp [route_message, hact, hm, hrest, active_matching,
          List.filter_cons]
    · rw [Bool.not_eq_true] at hact
      simp [route_message, hact, hrest, active_matching, List.filter_cons]

lemma route_invoked_active (m : MavlinkMessage) :
    ∀ subs : List Sub, ∀ i ∈ (route_message subs m).invoked,
      ∃ s ∈ subs, s.id = i ∧ s.active = true := by
  intro subs
  induction subs with
  | nil => intro i hi; cases hi
  | cons s rest ih =>
    intro i hi
    by_cases hact : s.active = true
    · by_cases hm : sub_matches s.filter m = true
      · by_cases hw : s.write m = true
        · simp only [route_message, hact, hm, hw, if_true] at hi
          rcases List.mem_cons.1 hi with h | h
          · exact ⟨s, List.mem_cons_self s rest, h.symm, hact⟩
          · obtain ⟨x, hx, hxi, hxa⟩ := ih i h
            exact ⟨x, List.mem_cons_of_mem s hx, hxi, hxa⟩
        · rw [Bool.not_eq_true] at hw
          simp only [route_message, hact, hm, hw, if_true,
            Bool.false_eq_true, if_false] at hi
          rcases List.mem_cons.1 hi with h | h
          · exact ⟨s, List.mem_cons_self s rest, h.symm, hact⟩
          · obtain ⟨x, hx, hxi, hxa⟩ := ih i h
            exact ⟨x, List.mem_cons_of_mem s hx, hxi, hxa⟩
      · rw [Bool.not_eq_true] at hm
        simp only [route_message, hact, hm, if_true, Bool.false_eq_true,
          if_false] at hi
        obtain ⟨x, hx, hxi, hxa⟩ := ih i hi
        exact ⟨x, List.mem_cons_of_mem s hx, hxi, hxa⟩
    · rw [Bool.not_eq_true] at hact
      simp only [route_message, hact, Bool.false_eq_true, if_false] at hi
      obtain ⟨x, hx, hxi, hxa⟩ := ih i hi
      exact ⟨x, List.mem_cons_of_mem s hx, hxi, hxa⟩

lemma route_preserves_inactive_id (m : MavlinkMessage) (i : Nat) :
    ∀ subs : List Sub,
      (∀ s ∈ subs, s.id = i → s.active = false) →
      ∀ s ∈ (route_message subs m).subs, s.id = i → s.active = false := by
  intro subs
  induction subs with
  | nil => intro _ s hs; cases hs
  | cons s rest ih =>
    intro h x hx
    have hrest := ih (fun y hy => h y (List.mem_cons_of_mem s hy))
    have hhead := h s (List.mem_cons_self s rest)
    by_cases hact : s.active = true
    · by_cases hm : sub_matches s.filter m = true
      · by_cases hw : s.write m = true
        · simp only [route_message, hact, hm, hw, if_true] at hx
          rcases List.mem_cons.1 hx with hh | hh
          · subst hh
            intro hid
            rw [hhead hid] at hact
            cases hact
          · exact hrest x hh
        · rw [Bool.not_eq_true] at hw
          simp only [route_message, hact, hm, hw, if_true,
            Bool.false_eq_true, if_false] at hx
          rcases List.mem_cons.1 hx with hh | hh
          · subst hh; intro _; rfl
          · exact hrest x hh
      · rw [Bool.not_eq_true] at hm
        simp only [route_message, hact, hm, if_true, Bool.false_eq_true,
          if_false] at hx
        rcases List.mem_cons.1 hx with hh | hh
        · subst hh
          intro hid
          rw [hhead hid] at hact
          cases hact
        · exact hrest x hh
    · rw [Bool.not_eq_true] at hact
      simp only [route_message, hact, Bool.false_eq_true, if_false] at hx
      rcases List.mem_cons.1 hx with hh | hh
      · subst hh; intro _; exact hact
      · exact hrest x hh

lemma route_many_not_invoked (i : Nat) :
    ∀ (ms : List MavlinkMessage) (subs : List Sub),
      (∀ s ∈ subs, s.id = i → s.active = false) →
      i ∉ (route_many subs ms).2 := by
  intro ms
  induction ms with
  | nil => intro subs _ hmem; cases hmem
  | cons m rest ih =>
    intro subs h hmem
    rcases List.mem_append.1 hmem with h1 | h1
    · obtain ⟨s, hs, hid, hact⟩ := route_invoked_active m subs i h1
      rw [h s hs hid] at hact
      cases hact
    · exact ih (route_message subs m).subs
        (route_preserves_inactive_id m i subs h) h1

lemma route_message_one_fail (m : MavlinkMessage) (s0 : Sub)
    (hact : s0.active = true) (hm : sub_matches s0.filter m = true)
    (hfail : s0.write m = false) :
    ∀ pre post : List Sub,
      (∀ s ∈ pre ++ post, s.active = true → sub_matches s.filter m = true →
        s.write m = true) →
      route_message (pre ++ s0 :: post) m =
        ⟨(active_matching pre m).length + (active_matching post m).length,
         pre ++ ({ s0 with active := false }) :: post,
         (active_matching pre m).map (fun s => s.id) ++
           s0.id :: (active_matching post m).map (fun s => s.id)⟩ := by
  intro pre
  induction pre with
  | nil =>
    intro post h
    have hpost := route_message_all_ok m post (by simpa using h)
    simp [route_message, hact, hm, hfail, hpost, active_matching]
  | cons s rest ih =>
    intro post h
    have hrest := ih post (fun x hx hx2 hx3 =>
      h x (List.mem_cons_of_mem s hx) hx2 hx3)
    by_cases ha : s.active = true
    · by_cases hmm : sub_matches s.filter m = true
      · have hw := h s (List.mem_cons_self s (rest ++ post)) ha hmm
        have hstep : route_message ((s :: rest) ++ s0 :: post) m =
            ⟨(route_message (rest ++ s0 :: post) m).delivered + 1,
             s :: (route_message (rest ++ s0 :: post) m).subs,
             s.id :: (route_message (rest ++ s0 :: post) m).invoked⟩ := by
          simp [route_message, ha, hmm, hw]
        rw [hstep, hrest]
        simp only [RouteResult.mk.injEq]
        refine ⟨?_, by simp, ?_⟩
        · simp only [active_matching, List.filter_cons, ha, hmm]
          simp only [Bool.and_self, if_true, List.length_cons]
          omega
        · simp [active_matching, List.filter_cons, ha, hmm]
      · rw [Bool.not_eq_true] at hmm
        have hstep : route_message ((s :: rest) ++ s0 :: post) m =
            ⟨(route_message (rest ++ s0 :: post) m).delivered,
             s :: (route_message (rest ++ s0 :: post) m).subs,
             (route_message (rest ++ s0 :: post) m).invoked⟩ := by
          simp [route_message, ha, hmm]
        rw [hstep, hrest]
        simp only [RouteResult.mk.injEq]
        refine ⟨?_, by simp, ?_⟩
        · simp [active_matching, List.filter_cons, ha, hmm]
        · simp [active_matching, List.filter_cons, ha, hmm]
    · rw [Bool.not_eq_true] at ha
      have hstep : route_message ((s :: rest) ++ s0 :: post) m =
          ⟨(route_message (rest ++ s0 :: post) m).delivered,
           s :: (route_message (rest ++ s0 :: post) m).subs,
           (route_message (rest ++ s0 :: post) m).invoked⟩ := by
        simp [route_message, ha]
      rw [hstep, hrest]
      simp only [RouteResult.mk.injEq]
      refine ⟨?_, by simp, ?_⟩
      · simp [active_matching, List.filter_cons, ha]
      · simp [active_matching, List.filter_cons, ha]

lemma cleanup_inactive_count (l : List Sub) :
    (cleanup_inactive l).2 = (l.filter (fun s => !s.active)).length := by
  unfold cleanup_inactive
  induction l with
  | nil => rfl
  | cons s rest ih =>
    have hle := List.length_filter_le (fun s : Sub => s.active) rest
    by_cases h : s.active = true
    · simp only [List.filter_cons, h, if_true, Bool.not_true,
        Bool.false_eq_true, if_false, List.length_cons]
      simp only [List.filter] at ih ⊢
      omega
    · rw [Bool.not_eq_true] at h
      simp only [List.filter_cons, h, Bool.false_eq_true, if_false,
        Bool.not_false, if_true, List.length_cons]
      simp only [List.filter] at ih ⊢
      omega

/-! ### Claim theorem: fan-out and eviction (C4) -/

/-- C4: when every active matching subscriber's write callback returns
true, `route_message` returns the number of active matching records and
invokes each of their callbacks exactly once (the invoked ids are
exactly the enumeration of the active matching records), leaving the
vector unchanged; when one callback returns false, that record is
marked inactive in place (not removed), is never invoked by any later
`route_message`, the active `subscription_count` drops by one, and a
subsequent `cleanup_inactive` removes it and returns the number of
inactive records removed. -/
theorem route_message_fanout_and_eviction (m : MavlinkMessage) :
    (∀ subs : List Sub,
      (∀ s ∈ subs, s.active = true → sub_matches s.filter m = true →
        s.write m = true) →
      (route_message subs m).delivered = (active_matching subs m).length ∧
      (route_message subs m).invoked =
        (active_matching subs m).map (fun s => s.id) ∧
      (route_message subs m).subs = subs) ∧
    (∀ (pre post : List Sub) (s0 : Sub),
      s0.active = true → sub_matches s0.filter m = true →
      s0.write m = false →
      (∀ s ∈ pre ++ post, s.active = true → sub_matches s.filter m = true →
        s.write m = true) →
      ((pre ++ s0 :: post).map (fun s => s.id)).Nodup →
      (route_message (pre ++ s0 :: post) m).subs =
          pre ++ ({ s0 with active := false }) :: post ∧
      s0.id ∈ (route_message (pre ++ s0 :: post) m).invoked ∧
      (∀ ms : List MavlinkMessage,
        s0.id ∉
          (route_many (route_message (pre ++ s0 :: post) m).subs ms).2) ∧
      subscription_count (route_message (pre ++ s0 :: post) m).subs + 1 =
        subscription_count (pre ++ s0 :: post) ∧
      (cleanup_inactive (route_message (pre ++ s0 :: post) m).subs).2 =
        ((route_message (pre ++ s0 :: post) m).subs.filter
          (fun s => !s.active)).length ∧
      (∀ s ∈ (cleanup_inactive
          (route_message (pre ++ s0 :: post) m).subs).1, s.id ≠ s0.id) ∧
      ((∀ s ∈ pre ++ post, s.active = true) →
        (cleanup_inactive
          (route_message (pre ++ s0 :: post) m).subs).2 = 1)) := by
  constructor
  · intro subs hok
    rw [route_message_all_ok m subs hok]
    exact ⟨rfl, rfl, rfl⟩
  · intro pre post s0 hact hm hfail hok hnodup
    have hroute := route_message_one_fail m s0 hact hm hfail pre post hok
    have hid0 : s0.id ∉ (pre.map (fun s => s.id)) ++
        (post.map (fun s => s.id)) := by
      have h1 : ((pre.map (fun s => s.id)) ++
          s0.id :: (post.map (fun s => s.id))).Nodup := by
        simpa using hnodup
      exact (List.nodup_cons.1 (List.nodup_middle.1 h1)).1
    have hinact : ∀ s ∈ pre ++ ({ s0 with active := false }) :: post,
        s.id = s0.id → s.active = false := by
      intro s hs hsid
      rcases List.mem_append.1 hs with hh | hh
      · exact absurd (List.mem_append.2
          (Or.inl (List.mem_map.2 ⟨s, hh, hsid⟩))) hid0
      · rcases List.mem_cons.1 hh with hh2 | hh2
        · rw [hh2]
        · exact absurd (List.mem_append.2
            (Or.inr (List.mem_map.2 ⟨s, hh2, hsid⟩))) hid0
    refine ⟨by rw [hroute], ?_, ?_, ?_, cleanup_inactive_count _, ?_, ?_⟩
    · rw [hroute]
      exact List.mem_append.2 (Or.inr (List.mem_cons_self _ _))
    · intro ms
      apply route_many_not_invoked s0.id ms
      rw [hroute]
      exact hinact
    · rw [hroute]
      have hf : ({ s0 with active := false } : Sub).active = false := rfl
      simp only [subscription_count, List.filter_append, List.filter_cons,
        hact, hf, if_true, Bool.false_eq_true, if_false,
        List.length_append, List.length_cons]
      omega
    · rw [hroute]
      intro s hs
      have hs2 : s ∈ (pre ++ ({ s0 with active := false }) :: post).filter
          (fun s => s.active) := hs
      rw [List.mem_filter] at hs2
      intro hsid
      rw [hinact s hs2.1 hsid] at hs2
      cases hs2.2
    · intro hall
      rw [hroute, cleanup_inactive_count]
      have hpre : pre.filter (fun s => !s.active) = [] := by
        rw [List.filter_eq_nil_iff]
        intro a ha
        simp [hall a (List.mem_append.2 (Or.inl ha))]
      have hpost : post.filter (fun s => !s.active) = [] := by
        rw [List.filter_eq_nil_iff]
        intro a ha
        simp [hall a (List.mem_append.2 (Or.inr ha))]
      simp [List.filter_append, List.filter_cons, hpre, hpost]

/-- Concrete router data for the C4 witness: a message, a subscriber
whose writer succeeds, and one whose writer fails. -/
def demo_msg : MavlinkMessage := ⟨1, 1, 0⟩

def demo_ok_sub : Sub := ⟨1, ⟨0, 0, []⟩, fun _ => true, true⟩

def demo_fail_sub : Sub := ⟨2, ⟨0, 0, []⟩, fun _ => false, true⟩

/-- Witness for C4 on concrete one-subscriber routers. -/
theorem route_fanout_eviction_witness :
    (route_message [demo_ok_sub] demo_msg).delivered =
      (active_matching [demo_ok_sub] demo_msg).length ∧
    (route_message ([] ++ demo_fail_sub :: []) demo_msg).subs =
      [] ++ ({ demo_fail_sub with active := false }) :: [] ∧
    demo_fail_sub.id ∉
      (route_many (route_message ([] ++ demo_fail_sub :: []) demo_msg).subs
        [demo_msg]).2 ∧
    subscription_count
        (route_message ([] ++ demo_fail_sub :: []) demo_msg).subs + 1 =
      subscription_count ([] ++ demo_fail_sub :: []) ∧
    (cleanup_inactive
        (route_message ([] ++ demo_fail_sub :: []) demo_msg).subs).2 = 1 := by
  have h1 := (route_message_fanout_and_eviction demo_msg).1 [demo_ok_sub]
    (by intro s hs _ _
        rw [List.mem_singleton] at hs
        subst hs
        rfl)
  have h2 := (route_message_fanout_and_eviction demo_msg).2 [] []
    demo_fail_sub rfl rfl rfl (by intro s hs; cases hs) (by simp)
  exact ⟨h1.1, h2.1, h2.2.2.1 [demo_msg], h2.2.2.2.1,
    h2.2.2.2.2.2.2 (by intro s hs; cases hs)⟩

/-! ### RPC service: SendMessage (Service.cc) -/

/-- The gRPC status codes the handler can return. -/
inductive StatusCode
  | ok
  | invalidArgument
  | internal
deriving Repr, DecidableEq

/-- `mavlink::SendResponse { success, error }`; proto3 defaults are
`false` and `""`. -/
structure SendResponse where
  success : Bool
  error : String
deriving Repr, DecidableEq

/-- Outcome of one `SendMessage` RPC: the returned status, the filled
response, and whether the bridge's send callback was invoked. -/
structure RpcOutcome where
  status : StatusCode
  response : SendResponse
  callbackInvoked : Bool
deriving Repr, DecidableEq

/-- `MavlinkBridgeServiceImpl::SendMessage` (Service.cc lines 63-101):
reject a request whose `payload_case()` is `PAYLOAD_NOT_SET` with
`INVALID_ARGUMENT` before touching the callback; otherwise invoke the
send callback (`sendCallback` is the boolean it returns) and answer
`OK` or `INTERNAL`. -/
def SendMessageRPC (hasPayload : Bool) (sendCallback : Bool) :
    RpcOutcome :=
  if hasPayload = false then
    { status := .invalidArgument,
      response := { success := false, error := "No payload in message" },
      callbackInvoked := false }
  else if sendCallback then
    { status := .ok,
      response := { success := true, error := "" },
      callbackInvoked := true }
  else
    { status := .internal,
      response := ⟨false, "Failed to send via MAVLink connection"⟩,
      callbackInvoked := true }

/-! ### Claim theorem: SendMessage RPC (C5) -/

/-- C5: a payload-less request yields `INVALID_ARGUMENT`,
`success == false`, a non-empty error, and no callback invocation;
with a payload, a true callback yields `OK` with `success == true`,
and a false callback yields `INTERNAL` with `success == false` and a
non-empty error. -/
theorem sendMessage_rpc_spec (cb : Bool) :
    ((SendMessageRPC false cb).status = StatusCode.invalidArgument ∧
     (SendMessageRPC false cb).response.success = false ∧
     (SendMessageRPC false cb).response.error ≠ "" ∧
     (SendMessageRPC false cb).callbackInvoked = false) ∧
    ((SendMessageRPC true true).status = StatusCode.ok ∧
     (SendMessageRPC true true).response.success = true ∧
     (SendMessageRPC true true).callbackInvoked = true) ∧
    ((SendMessageRPC true false).status = StatusCode.internal ∧
     (SendMessageRPC true false).response.success = false ∧
     (SendMessageRPC true false).response.error ≠ "" ∧
     (SendMessageRPC true false).callbackInvoked = true) := by
  cases cb <;> decide

/-! ### SerialTransport: baud mapping and open (SerialTransport.cc) -/

/-- The `speed_t` constants the switch in
`SerialTransport::baudrate_to_speed` can produce; `B0` is its
invalid-rate sentinel. -/
inductive SpeedT
  | B0
  | B9600
  | B19200
  | B38400
  | B57600
  | B115200
  | B230400
  | B460800
  | B500000
  | B576000
  | B921600
  | B1000000
  | B1152000
  | B1500000
  | B2000000
  | B2500000
  | B3000000
  | B3500000
  | B4000000
deriving Repr, DecidableEq

/-- `SerialTransport::baudrate_to_speed` (SerialTransport.cc lines
142-164): the 18-case switch, `B0` as the default. -/
def baudrate_to_speed (baudrate : Nat) : SpeedT :=
  if baudrate = 9600 then .B9600
  else if baudrate = 19200 then .B19200
  else if baudrate = 38400 then .B38400
  else if baudrate = 57600 then .B57600
  else if baudrate = 115200 then .B115200
  else if baudrate = 230400 then .B230400
  else if baudrate = 460800 then .B460800
  else if baudrate = 500000 then .B500000
  else if baudrate = 576000 then .B576000
  else if baudrate = 921600 then .B921600
  else if baudrate = 1000000 then .B1000000
  else if baudrate = 1152000 then .B1152000
  else if baudrate = 1500000 then .B1500000
  else if baudrate = 2000000 then .B2000000
  else if baudrate = 2500000 then .B2500000
  else if baudrate = 3000000 then .B3000000
  else if baudrate = 3500000 then .B3500000
  else if baudrate = 4000000 then .B4000000
  else .B0

/-- The rates the switch covers, in source order. -/
def supported_baud_rates : List Nat :=
  [9600, 19200, 38400, 57600, 115200, 230400, 460800, 500000, 576000,
   921600, 1000000, 1152000, 1500000, 2000000, 2500000, 3000000,
   3500000, 4000000]

/-- Serial transport state: whether `fd_ >= 0`. -/
structure SerialState where
  fd_open : Bool
deriving Repr, DecidableEq

/-- `SerialTransport::configure_port` (lines 91-140): fails when
`baudrate_to_speed` returns `B0`, otherwise succeeds iff `tcsetattr`
does (`tcsetattrOk` oracle). -/
def configure_port (baudrate : Nat) (tcsetattrOk : Bool) : Bool :=
  if baudrate_to_speed baudrate = SpeedT.B0 then false else tcsetattrOk

/-- `SerialTransport::open` (lines 24-50): idempotent when open;
otherwise open the device (`deviceOpens` oracle for `::open`), snapshot
termios (`tcgetattrOk` oracle), configure; on any failure close the
descriptor again and report false. -/
def serial_open (st : SerialState) (baudrate : Nat)
    (deviceOpens tcgetattrOk tcsetattrOk : Bool) : Bool × SerialState :=
  if st.fd_open then (true, st)
  else if deviceOpens = false then (false, st)
  else if tcgetattrOk = false then (false, { fd_open := false })
  else if configure_port baudrate tcsetattrOk = false then
    (false, { fd_open := false })
  else (true, { fd_open := true })

/-! ### Claim theorem: serial baud mapping (C8) -/

/-- C8: the baud mapping accepts exactly the 18 standard rates 9600
through 4000000, and on a closed transport whose device opens and
configures, `open` succeeds exactly for those rates; any unsupported
rate makes `open` fail and leaves the transport closed. -/
theorem serial_open_baud_spec (baud : Nat) :
    (baudrate_to_speed baud ≠ SpeedT.B0 ↔ baud ∈ supported_baud_rates) ∧
    ((serial_open ⟨false⟩ baud true true true).1 = true ↔
      baud ∈ supported_baud_rates) ∧
    (baud ∉ supported_baud_rates →
      (serial_open ⟨false⟩ baud true true true).1 = false ∧
      (serial_open ⟨false⟩ baud true true true).2.fd_open = false) := by
  have hiff : baudrate_to_speed baud ≠ SpeedT.B0 ↔
      baud ∈ supported_baud_rates := by
    by_cases hmem : baud ∈ supported_baud_rates
    · refine ⟨fun _ => hmem, fun _ => ?_⟩
      fin_cases hmem <;> decide
    · refine ⟨fun h => absurd ?_ h, fun h => absurd h hmem⟩
      simp only [supported_baud_rates, List.mem_cons, List.not_mem_nil,
        or_false] at hmem
      push_neg at hmem
      obtain ⟨h1, h2, h3, h4, h5, h6, h7, h8, h9, h10, h11, h12, h13,
        h14, h15, h16, h17, h18⟩ := hmem
      simp only [baudrate_to_speed, h1, h2, h3, h4, h5, h6, h7, h8, h9,
        h10, h11, h12, h13, h14, h15, h16, h17, h18, if_false]
  have hopen : (serial_open ⟨false⟩ baud true true true).1 = true ↔
      baudrate_to_speed baud ≠ SpeedT.B0 := by
    unfold serial_open configure_port
    by_cases h : baudrate_to_speed baud = SpeedT.B0 <;> simp [h]
  refine ⟨hiff, hopen.trans hiff, ?_⟩
  intro hmem
  have hB0 : baudrate_to_speed baud = SpeedT.B0 := by
    by_contra h
    exact hmem (hiff.1 h)
  unfold serial_open configure_port
  simp [hB0]

/-- Witness for C8 at a supported and an unsupported rate. -/
theorem serial_open_baud_witness :
    (115200 ∈ supported_baud_rates ∧
      (serial_open ⟨false⟩ 115200 true true true).1 = true) ∧
    (14400 ∉ supported_baud_rates ∧
      (serial_open ⟨false⟩ 14400 true true true).1 = false ∧
      (serial_open ⟨false⟩ 14400 true true true).2.fd_open = false) :=
  ⟨⟨by decide, ((serial_open_baud_spec 115200).2.1).2 (by decide)⟩,
   ⟨by decide, (serial_open_baud_spec 14400).2.2 (by decide)⟩⟩

/-! ### UdpTransport: write (UdpTransport.cc) -/

/-- A UDP remote endpoint `(sin_addr, sin_port)`. -/
structure Endpoint where
  addr : Nat
  port : Nat
deriving Repr, DecidableEq

/-- The UdpTransport state `udp_write` consults: `socket_fd_ >= 0`,
the learned `remote_endpoints_` set, the broadcast flag, and the local
port (used for the broadcast destination). -/
structure UdpState where
  socket_open : Bool
  remote_endpoints : List Endpoint
  broadcast_enabled : Bool
  local_port : Nat
deriving Repr, DecidableEq

/-- The limited-broadcast destination `255.255.255.255:local_port`. -/
def broadcast_endpoint (local_port : Nat) : Endpoint :=
  ⟨4294967295, local_port⟩

/-- The per-endpoint loop of `UdpTransport::write` (lines 112-119):
`sendResult e` is the oracle for `sendto` toward `e`; a negative
result returns -1 immediately, skipping the remaining endpoints.
Returns the final `bytes_sent` (initialised to `acc`, the -1 the
function starts with) and the endpoints a `sendto` was issued to. -/
def udp_write_loop (sendResult : Endpoint → Int) (acc : Int) :
    List Endpoint → Int × List Endpoint
  | [] => (acc, [])
  | e :: rest =>
    if sendResult e < 0 then (-1, [e])
    else
      let r := udp_write_loop sendResult (sendResult e) rest
      (r.1, e :: r.2)

/-- `UdpTransport::write` (UdpTransport.cc lines 100-137): fail when
closed; fail without sending when there is neither an endpoint nor
broadcast; otherwise send one datagram per remote endpoint (aborting
on the first failure) and, only when the endpoint set is empty and
broadcast is enabled, send once to the limited broadcast address. -/
def udp_write (st : UdpState) (sendResult : Endpoint → Int) :
    Int × List Endpoint :=
  if st.socket_open = false then (-1, [])
  else if st.remote_endpoints = [] ∧ st.broadcast_enabled = false then
    (-1, [])
  else if st.remote_endpoints = [] then
    let b := sendResult (broadcast_endpoint st.local_port)
    if b < 0 then (-1, [broadcast_endpoint st.local_port])
    else (b, [broadcast_endpoint st.local_port])
  else udp_write_loop sendResult (-1) st.remote_endpoints

/-! ### UdpTransport lemmas -/

lemma udp_write_loop_all_ok (sendResult : Endpoint → Int) :
    ∀ (es : List Endpoint) (acc : Int),
      (∀ e ∈ es, 0 ≤ sendResult e) →
      udp_write_loop sendResult acc es =
        ((es.map sendResult).getLastD acc, es) := by
  intro es
  induction es with
  | nil => intro acc _; rfl
  | cons e rest ih =>
    intro acc h
    have he := h e (List.mem_cons_self e rest)
    have hneg : ¬ sendResult e < 0 := by omega
    simp only [udp_write_loop, hneg, if_false,
      ih (sendResult e) (fun x hx => h x (List.mem_cons_of_mem e hx))]
    simp only [List.map_cons, List.getLastD_cons]

lemma udp_write_loop_first_fail (sendResult : Endpoint → Int)
    (bad : Endpoint) (hbad : sendResult bad < 0) :
    ∀ (good rest : List Endpoint) (acc : Int),
      (∀ g ∈ good, 0 ≤ sendResult g) →
      udp_write_loop sendResult acc (good ++ bad :: rest) =
        (-1, good ++ [bad]) := by
  intro good
  induction good with
  | nil =>
    intro rest acc _
    simp [udp_write_loop, hbad]
  | cons g gs ih =>
    intro rest acc h
    have hg := h g (List.mem_cons_self g gs)
    have hneg : ¬ sendResult g < 0 := by omega
    have hih := ih rest (sendResult g)
      (fun x hx => h x (List.mem_cons_of_mem g hx))
    rw [List.cons_append]
    simp only [udp_write_loop, hneg, if_false, hih]
    simp

/-! ### Claim theorem: UDP write (C10) -/

/-- C10: on an open socket with no remote endpoints and broadcast
disabled, `write` returns -1 and sends no datagram; with a non-empty
endpoint set, it returns the byte count of the last per-endpoint
`sendto` when all succeed, and returns -1 as soon as one fails,
skipping the remaining endpoints. -/
theorem udp_write_spec (st : UdpState) (sendResult : Endpoint → Int) :
    (st.socket_open = true → st.remote_endpoints = [] →
      st.broadcast_enabled = false →
      udp_write st sendResult = (-1, [])) ∧
    (st.socket_open = true → st.remote_endpoints ≠ [] →
      ((∀ e ∈ st.remote_endpoints, 0 ≤ sendResult e) →
        udp_write st sendResult =
          ((st.remote_endpoints.map sendResult).getLastD (-1),
            st.remote_endpoints)) ∧
      (∀ (good rest : List Endpoint) (bad : Endpoint),
        st.remote_endpoints = good ++ bad :: rest →
        (∀ g ∈ good, 0 ≤ sendResult g) → sendResult bad < 0 →
        udp_write st sendResult = (-1, good ++ [bad]))) := by
  constructor
  · intro hopen hemp hbc
    unfold udp_write
    rw [hemp]
    simp [hopen, hbc]
  · intro hopen hne
    have hg1 : ¬ st.socket_open = false := by rw [hopen]; simp
    have hg2 : ¬ (st.remote_endpoints = [] ∧
        st.broadcast_enabled = false) := fun h => hne h.1
    constructor
    · intro hall
      unfold udp_write
      rw [if_neg hg1, if_neg hg2, if_neg hne]
      exact udp_write_loop_all_ok sendResult st.remote_endpoints (-1) hall
    · intro good rest bad heq hgood hbad
      unfold udp_write
      rw [if_neg hg1, if_neg hg2, if_neg hne, heq]
      exact udp_write_loop_first_fail sendResult bad hbad good rest
        (-1) hgood

/-- Concrete transports and send oracles for the C10 witness. -/
def demo_udp_listener : UdpState := ⟨true, [], false, 14550⟩

def demo_udp_two : UdpState := ⟨true, [⟨1, 1⟩, ⟨2, 2⟩], false, 14550⟩

def demo_udp_three : UdpState :=
  ⟨true, [⟨1, 1⟩, ⟨2, 2⟩, ⟨3, 3⟩], false, 14550⟩

def demo_send_ok : Endpoint → Int := fun e => (e.addr : Int)

def demo_send_failing : Endpoint → Int :=
  fun e => if e.addr = 1 then 5 else -1

/-- Witness for C10: empty set returns -1 without a datagram; two
successful endpoint sends return the last byte count; a failure at the
second of three endpoints aborts with -1, never reaching the third. -/
theorem udp_write_witness :
    udp_write demo_udp_listener demo_send_ok = (-1, []) ∧
    udp_write demo_udp_two demo_send_ok = (2, [⟨1, 1⟩, ⟨2, 2⟩]) ∧
    udp_write demo_udp_three demo_send_failing =
      (-1, [⟨1, 1⟩, ⟨2, 2⟩]) := by
  refine ⟨(udp_write_spec demo_udp_listener demo_send_ok).1 rfl rfl rfl,
    ?_, ?_⟩
  · have h := ((udp_write_spec demo_udp_two demo_send_ok).2 rfl
      (by decide)).1 (by decide)
    rw [h]
    rfl
  · have h := ((udp_write_spec demo_udp_three demo_send_failing).2 rfl
      (by decide)).2 [⟨1, 1⟩] [⟨3, 3⟩] ⟨2, 2⟩ rfl (by decide) (by decide)
    rw [h]
    rfl

end Mav2Grpc
